import Mathlib

/-!
# Verification of the `epos-rs` protocol client

A shallow embedding of the core of the `epos-rs` crate (an XML-over-HTTP
client for Epson ePOS network printers) together with proofs about it.

The embedding covers, file by file:

* `src/status.rs` — the 32-bit status-word decoder (`PrinterStatus`,
  `impl From<StatusCode> for PrinterStatus`) and the `Response` type;
* `src/soap.rs` — the transport envelope (`EnumBody`, `SoapWrapper`),
  the serialize-then-unescape dispatch sequence of `send`, and `send`'s
  handling of the decoded reply;
* `src/lib.rs` — the `NormalBuilder` / `PageBuilder` fragment buffers,
  `add` and `print`;
* `src/error.rs` — the `EPOSError` enum;
* `src/formatters.rs`, `src/barcodes.rs` — the catalog enumerations and
  their serde wire tokens;
* `src/normal.rs`, `src/page.rs`, `src/universal.rs` — the command types
  and their `NormalItem` / `PageItem` trait implementations.

Rust `u32` values are modelled as `Nat` (all masks and the bitwise `&`
stay below `2^32`, and `Nat.land` agrees with `u32` `&` on such values);
Rust `String`s that proofs must take apart are modelled as `List Char`.
-/

namespace Epos

/-! ## Status decoder (`src/status.rs`) -/

/-- `PrinterStatus` from `src/status.rs` lines 7–66: one `bool` field per
named hardware condition, in the source's declaration order. -/
structure PrinterStatus where
  no_response : Bool
  success : Bool
  drawer_kick_out_connector : Bool
  battery_offline_status : Bool
  offline : Bool
  cover_open : Bool
  paper_feed_operation : Bool
  waiting_online : Bool
  paper_feed_switch_pressed : Bool
  mechanical_error : Bool
  autocutter_error : Bool
  unrecoverable : Bool
  recoverable : Bool
  no_paper_roll_near_end_sensor : Bool
  no_paper_in_roll_paper_end_sensor : Bool
  buzzer_on : Bool
  label_wait_removal : Bool
  no_paper_in_peel_sensor : Bool
  spooler_stopped : Bool
deriving DecidableEq, Repr

/-- `impl From<StatusCode> for PrinterStatus` (`src/status.rs` lines 75–99):
each field is `(value & mask) != 0` for that field's fixed mask. -/
def PrinterStatus.fromCode (value : Nat) : PrinterStatus where
  no_response := value &&& 0x00000001 != 0
  success := value &&& 0x00000002 != 0
  drawer_kick_out_connector := value &&& 0x00000004 != 0
  battery_offline_status := value &&& 0x00000004 != 0
  offline := value &&& 0x00000008 != 0
  cover_open := value &&& 0x00000020 != 0
  paper_feed_operation := value &&& 0x00000040 != 0
  waiting_online := value &&& 0x00000100 != 0
  paper_feed_switch_pressed := value &&& 0x00000200 != 0
  mechanical_error := value &&& 0x00000400 != 0
  autocutter_error := value &&& 0x00000800 != 0
  unrecoverable := value &&& 0x00002000 != 0
  recoverable := value &&& 0x00004000 != 0
  no_paper_roll_near_end_sensor := value &&& 0x00020000 != 0
  no_paper_in_roll_paper_end_sensor := value &&& 0x00080000 != 0
  buzzer_on := value &&& 0x01000000 != 0
  label_wait_removal := value &&& 0x01000000 != 0
  no_paper_in_peel_sensor := value &&& 0x40000000 != 0
  spooler_stopped := value &&& 0x80000000 != 0

/-- The decoder's (name, mask) table, in the order the fields are written
in `src/status.rs` lines 78–96. -/
def statusTable : List (String × Nat) :=
  [("no_response", 0x00000001),
   ("success", 0x00000002),
   ("drawer_kick_out_connector", 0x00000004),
   ("battery_offline_status", 0x00000004),
   ("offline", 0x00000008),
   ("cover_open", 0x00000020),
   ("paper_feed_operation", 0x00000040),
   ("waiting_online", 0x00000100),
   ("paper_feed_switch_pressed", 0x00000200),
   ("mechanical_error", 0x00000400),
   ("autocutter_error", 0x00000800),
   ("unrecoverable", 0x00002000),
   ("recoverable", 0x00004000),
   ("no_paper_roll_near_end_sensor", 0x00020000),
   ("no_paper_in_roll_paper_end_sensor", 0x00080000),
   ("buzzer_on", 0x01000000),
   ("label_wait_removal", 0x01000000),
   ("no_paper_in_peel_sensor", 0x40000000),
   ("spooler_stopped", 0x80000000)]

/-- The union of every mask in `statusTable`. -/
def statusMaskUnion : Nat := 0xC10A6F6F

/-- Spec-side decoder, written from the spec's words (§4.5): "for each
(name, mask) entry in a fixed ordered table, include `name` in the output
iff `status & mask != 0`".  Used to compare the spec's description with
the source's `PrinterStatus.fromCode`. -/
def decode_spec (status : Nat) : List String :=
  (statusTable.filter (fun e => status &&& e.2 != 0)).map Prod.fst

/-- The names of the `true` fields of a `PrinterStatus`, in the struct's
declaration order (the order serde serializes them in `src/status.rs`). -/
def PrinterStatus.flags (s : PrinterStatus) : List String :=
  (if s.no_response then ["no_response"] else []) ++
  ((if s.success then ["success"] else []) ++
  ((if s.drawer_kick_out_connector then ["drawer_kick_out_connector"] else []) ++
  ((if s.battery_offline_status then ["battery_offline_status"] else []) ++
  ((if s.offline then ["offline"] else []) ++
  ((if s.cover_open then ["cover_open"] else []) ++
  ((if s.paper_feed_operation then ["paper_feed_operation"] else []) ++
  ((if s.waiting_online then ["waiting_online"] else []) ++
  ((if s.paper_feed_switch_pressed then ["paper_feed_switch_pressed"] else []) ++
  ((if s.mechanical_error then ["mechanical_error"] else []) ++
  ((if s.autocutter_error then ["autocutter_error"] else []) ++
  ((if s.unrecoverable then ["unrecoverable"] else []) ++
  ((if s.recoverable then ["recoverable"] else []) ++
  ((if s.no_paper_roll_near_end_sensor then ["no_paper_roll_near_end_sensor"] else []) ++
  ((if s.no_paper_in_roll_paper_end_sensor then ["no_paper_in_roll_paper_end_sensor"] else []) ++
  ((if s.buzzer_on then ["buzzer_on"] else []) ++
  ((if s.label_wait_removal then ["label_wait_removal"] else []) ++
  ((if s.no_paper_in_peel_sensor then ["no_paper_in_peel_sensor"] else []) ++
  (if s.spooler_stopped then ["spooler_stopped"] else []))))))))))))))))))

/-- The all-false status record (`PrinterStatus::default()` in Rust). -/
def PrinterStatus.allFalse : PrinterStatus where
  no_response := false
  success := false
  drawer_kick_out_connector := false
  battery_offline_status := false
  offline := false
  cover_open := false
  paper_feed_operation := false
  waiting_online := false
  paper_feed_switch_pressed := false
  mechanical_error := false
  autocutter_error := false
  unrecoverable := false
  recoverable := false
  no_paper_roll_near_end_sensor := false
  no_paper_in_roll_paper_end_sensor := false
  buzzer_on := false
  label_wait_removal := false
  no_paper_in_peel_sensor := false
  spooler_stopped := false

lemma ite_singleton_append {α : Type} (c : Prop) [Decidable c] (a : α) (l : List α) :
    (if c then [a] else []) ++ l = if c then a :: l else l := by
  split <;> simp

lemma land_congr_of_le_union {s t u m : Nat} (h : s &&& u = t &&& u)
    (hm : m &&& u = m) : s &&& m = t &&& m := by
  calc s &&& m = s &&& (m &&& u) := by rw [hm]
    _ = s &&& (u &&& m) := by rw [Nat.land_comm m u]
    _ = (s &&& u) &&& m := by rw [Nat.land_assoc]
    _ = (t &&& u) &&& m := by rw [h]
    _ = t &&& (u &&& m) := by rw [Nat.land_assoc]
    _ = t &&& (m &&& u) := by rw [Nat.land_comm m u]
    _ = t &&& m := by rw [hm]

/-! ## XML escaping (`quick_xml::escape`, as used by `src/soap.rs`)

`quick_xml`'s serializer escapes text content by replacing the five
XML-special characters with their named entities; `quick_xml::escape::unescape`
replaces the entities back.  (The real `unescape` also resolves numeric
references and errors on malformed entities; on the serializer's own
output — the only place `src/soap.rs` applies it — only the five named
entities occur, so the model lets an unrecognized ampersand pass through.) -/

/-- Entity expansion of a single character, as the serializer escapes text
content: the five XML-special characters become named entities, every other
character is emitted verbatim. -/
def escChar (c : Char) : List Char :=
  if c = '&' then ['&', 'a', 'm', 'p', ';']
  else if c = '<' then ['&', 'l', 't', ';']
  else if c = '>' then ['&', 'g', 't', ';']
  else if c = '\x27' then ['&', 'a', 'p', 'o', 's', ';']
  else if c = '\x22' then ['&', 'q', 'u', 'o', 't', ';']
  else [c]

/-- Escape a text-content string character by character. -/
def escape (s : List Char) : List Char := (s.map escChar).flatten

/-- `quick_xml::escape::unescape` (`src/soap.rs` line 76): one left-to-right
pass replacing each named entity with its character. -/
def unescape : List Char → List Char
  | [] => []
  | c :: rest =>
    if c = '&' then
      if rest.take 4 = ['a', 'm', 'p', ';'] then '&' :: unescape (rest.drop 4)
      else if rest.take 3 = ['l', 't', ';'] then '<' :: unescape (rest.drop 3)
      else if rest.take 3 = ['g', 't', ';'] then '>' :: unescape (rest.drop 3)
      else if rest.take 5 = ['a', 'p', 'o', 's', ';'] then '\x27' :: unescape (rest.drop 5)
      else if rest.take 5 = ['q', 'u', 'o', 't', ';'] then '\x22' :: unescape (rest.drop 5)
      else c :: unescape rest
    else c :: unescape rest
termination_by l => l.length
decreasing_by all_goals simp [List.length_drop] <;> omega

lemma escape_nil : escape [] = [] := rfl

lemma escape_cons (c : Char) (s : List Char) :
    escape (c :: s) = escChar c ++ escape s := by
  simp [escape]

lemma escape_append (s t : List Char) :
    escape (s ++ t) = escape s ++ escape t := by
  simp [escape]

lemma unescape_cons_ne {c : Char} (h : c ≠ '&') (l : List Char) :
    unescape (c :: l) = c :: unescape l := by
  rw [unescape, if_neg h]

lemma unescape_escChar_append (c : Char) (r : List Char) :
    unescape (escChar c ++ r) = c :: unescape r := by
  by_cases h1 : c = '&'
  · subst h1
    rw [show escChar '&' = ['&', 'a', 'm', 'p', ';'] from by decide]
    rw [List.cons_append, unescape]
    simp
  · by_cases h2 : c = '<'
    · subst h2
      rw [show escChar '<' = ['&', 'l', 't', ';'] from by decide]
      rw [List.cons_append, unescape]
      simp
    · by_cases h3 : c = '>'
      · subst h3
        rw [show escChar '>' = ['&', 'g', 't', ';'] from by decide]
        rw [List.cons_append, unescape]
        simp
      · by_cases h4 : c = '\x27'
        · subst h4
          rw [show escChar '\x27' = ['&', 'a', 'p', 'o', 's', ';'] from by decide]
          rw [List.cons_append, unescape]
          simp
        · by_cases h5 : c = '\x22'
          · subst h5
            rw [show escChar '\x22' = ['&', 'q', 'u', 'o', 't', ';'] from by decide]
            rw [List.cons_append, unescape]
            simp
          · have he : escChar c = [c] := by simp [escChar, h1, h2, h3, h4, h5]
            rw [he, List.singleton_append, unescape_cons_ne h1]

/-- Unescaping undoes one escaping pass, whatever follows: the
escape-then-unescape round trip of `send` is lossless. -/
lemma unescape_escape_append (s r : List Char) :
    unescape (escape s ++ r) = s ++ unescape r := by
  induction s with
  | nil => simp [escape_nil]
  | cons c s ih =>
    rw [escape_cons, List.append_assoc, unescape_escChar_append, ih, List.cons_append]

lemma unescape_no_amp_append {a : List Char} (r : List Char) (h : '&' ∉ a) :
    unescape (a ++ r) = a ++ unescape r := by
  induction a with
  | nil => simp
  | cons c a ih =>
    simp only [List.mem_cons, not_or] at h
    rw [List.cons_append, unescape_cons_ne (fun e => h.1 e.symm), ih h.2, List.cons_append]

lemma unescape_nil : unescape [] = [] := by rw [unescape]

lemma unescape_no_amp {a : List Char} (h : '&' ∉ a) : unescape a = a := by
  have := unescape_no_amp_append (a := a) [] h
  simpa [unescape_nil] using this

lemma escape_eq_self_of_plain {s : List Char} (h : ∀ c ∈ s, escChar c = [c]) :
    escape s = s := by
  induction s with
  | nil => rfl
  | cons c s ih =>
    rw [escape_cons, h c (List.mem_cons_self c s), List.singleton_append,
      ih (fun d hd => h d (List.mem_cons_of_mem c hd))]

/-! ## Transport envelope and dispatch (`src/soap.rs`) -/

/-- `EnumBody` (`src/soap.rs` lines 45–57): the inner print payload.
`NoPage` carries the flat command body as element text of `epos-print`;
`Page` carries it inside a `page` child element (`PageWrapper`,
lines 59–63, whose single field is inlined here). -/
inductive EnumBody where
  | noPage (body : List Char)
  | page (body : List Char)

/-- Opening of the serialized `SoapWrapper`: the `s:Envelope` element with
its fixed namespace (`src/soap.rs` line 67) and the `s:Body` element
carrying `EposPrint`'s fixed namespace attribute (line 69). -/
def soapPre : List Char :=
  ("<s:Envelope xmlns:s=\"http://schemas.xmlsoap.org/soap/envelope/\">" ++
   "<s:Body xmlns=\"http://www.epson-pos.com/schemas/2011/03/epos-print\">").toList

/-- Closing of the serialized `SoapWrapper`. -/
def soapPost : List Char := "</s:Body></s:Envelope>".toList

def eposOpen : List Char := "<epos-print>".toList

def eposClose : List Char := "</epos-print>".toList

/-- Self-closing form the serializer emits for an empty `epos-print` body. -/
def eposEmpty : List Char := "<epos-print/>".toList

def pageOpen : List Char := "<page>".toList

def pageClose : List Char := "</page>".toList

/-- Self-closing form the serializer emits for an empty `page` body. -/
def pageEmpty : List Char := "<page/>".toList

/-- `quick_xml::se::to_string(&full_request)` (`src/soap.rs` line 74): the
whole envelope is serialized in one go; the command body, which is stored
as an already-rendered string, is escaped by the serializer as element
text.  The wrapper tags themselves are structural and are not escaped; an
empty body serializes as a self-closing element. -/
def serializeEnvelope : EnumBody → List Char
  | EnumBody.noPage b =>
    if b = [] then soapPre ++ (eposEmpty ++ soapPost)
    else (soapPre ++ eposOpen) ++ (escape b ++ (eposClose ++ soapPost))
  | EnumBody.page b =>
    if b = [] then soapPre ++ (eposOpen ++ (pageEmpty ++ (eposClose ++ soapPost)))
    else (soapPre ++ (eposOpen ++ pageOpen)) ++
      (escape b ++ (pageClose ++ (eposClose ++ soapPost)))

/-- The bytes `send` posts (`src/soap.rs` lines 74–85): the serialized
envelope with one `unescape` pass applied to the whole output, immediately
before transmission. -/
def sendTransmitted (body : EnumBody) : List Char :=
  unescape (serializeEnvelope body)

/-- `Response` (`src/status.rs` lines 102–122). -/
structure Response where
  ns : List Char
  success : Bool
  code : List Char
  status : Nat
  battery : Nat
deriving DecidableEq

/-- `EPOSError` (`src/error.rs` lines 6–16).  The payloads of the three
wrapped foreign errors (`quick_xml::DeError`, `reqwest::Error`,
`reqwest::header::InvalidHeaderValue`) are opaque and carry no data the
claims inspect. -/
inductive EPOSError where
  | serializeError
  | networkError
  | invalidHeaderError
  | responseError (status : Response)
deriving DecidableEq

/-- The Rust variant names of `EPOSError`, in declaration order
(`src/error.rs`). -/
def eposErrorVariants : List String :=
  ["SerializeError", "NetworkError", "InvalidHeaderError", "ResponseError"]

/-- The reply handling at the end of `send` (`src/soap.rs` lines 90–94):
given the decoded `Response`, fail with `ResponseError` carrying it when
`success` is false, otherwise return `Ok(())`. -/
def sendOutcome (r : Response) : Except EPOSError Unit :=
  if !r.success then Except.error (EPOSError.responseError r) else Except.ok ()

/-! ## Builders (`src/lib.rs`) -/

/-- `Vec::join("\n")` as called in `PageBuilder::print` and
`NormalBuilder::print` (`src/lib.rs` lines 120 and 151): the fragments in
append order with a single newline between consecutive fragments. -/
def joinNL : List (List Char) → List Char
  | [] => []
  | [x] => x
  | x :: y :: xs => x ++ '\n' :: joinNL (y :: xs)

/-- `NormalBuilder` (`src/lib.rs` lines 128–133): the buffer of rendered
command fragments plus the connection parameters. -/
structure NormalBuilder where
  build : List (List Char)
  timeout : Int
  dev_id : List Char
  endpoint : List Char

/-- `PageBuilder` (`src/lib.rs` lines 96–101). -/
structure PageBuilder where
  build : List (List Char)
  timeout : Int
  dev_id : List Char
  endpoint : List Char

/-- `NormalBuilder::add` (`src/lib.rs` lines 143–147): serialize the item
and push the resulting string.  The serialization itself is modelled by
the `render*` functions; `add` receives the rendered fragment. -/
def NormalBuilder.add (b : NormalBuilder) (rendered : List Char) : NormalBuilder :=
  { b with build := b.build ++ [rendered] }

/-- `PageBuilder::add` (`src/lib.rs` lines 112–116). -/
def PageBuilder.add (b : PageBuilder) (rendered : List Char) : PageBuilder :=
  { b with build := b.build ++ [rendered] }

/-- `NormalBuilder::print` (`src/lib.rs` lines 150–155): build
`EnumBody::NoPage` from the joined buffer and dispatch it.  `print` takes
`&mut self` but only reads `self.build`; the pair returned here is the
transmitted bytes together with the builder as `print` leaves it. -/
def NormalBuilder.print (b : NormalBuilder) : List Char × NormalBuilder :=
  (sendTransmitted (EnumBody.noPage (joinNL b.build)), b)

/-- `PageBuilder::print` (`src/lib.rs` lines 119–124): same, with the body
wrapped as `EnumBody::Page`. -/
def PageBuilder.print (b : PageBuilder) : List Char × PageBuilder :=
  (sendTransmitted (EnumBody.page (joinNL b.build)), b)

def textOpen : List Char := "<text>".toList

def textClose : List Char := "</text>".toList

/-- `quick_xml::se::to_string` of a `Text` item (`src/universal.rs` lines
8–45) with every optional attribute `None`: the optionals are skipped
entirely, the payload is emitted as escaped element text, and an empty
payload yields a self-closing element. -/
def renderText (payload : List Char) : List Char :=
  if payload = [] then "<text/>".toList
  else textOpen ++ (escape payload ++ textClose)

lemma soapPre_eposOpen_no_amp : '&' ∉ soapPre ++ eposOpen := by decide

lemma tail_noPage_no_amp : '&' ∉ eposClose ++ soapPost := by decide

/-- What actually goes on the wire for a non-empty `NoPage` body: the
serializer escapes the body once, the final `unescape` pass undoes exactly
that, and the envelope text around it is untouched. -/
lemma sendTransmitted_noPage {b : List Char} (hb : b ≠ []) :
    sendTransmitted (EnumBody.noPage b) =
      (soapPre ++ eposOpen) ++ (b ++ (eposClose ++ soapPost)) := by
  rw [sendTransmitted, serializeEnvelope, if_neg hb,
    unescape_no_amp_append _ soapPre_eposOpen_no_amp, unescape_escape_append,
    unescape_no_amp tail_noPage_no_amp]

lemma head_page_no_amp : '&' ∉ soapPre ++ (eposOpen ++ pageOpen) := by decide

lemma tail_page_no_amp : '&' ∉ pageClose ++ (eposClose ++ soapPost) := by decide

/-- Wire form of a non-empty `Page` body: ditto, under the extra `page`
element. -/
lemma sendTransmitted_page {b : List Char} (hb : b ≠ []) :
    sendTransmitted (EnumBody.page b) =
      (soapPre ++ (eposOpen ++ pageOpen)) ++
        (b ++ (pageClose ++ (eposClose ++ soapPost))) := by
  rw [sendTransmitted, serializeEnvelope, if_neg hb,
    unescape_no_amp_append _ head_page_no_amp, unescape_escape_append,
    unescape_no_amp tail_page_no_amp]

/-- Claim C3: a text payload is escaped exactly once on the wire.  The
fragment stored by `add` carries the payload escaped once; `send` escapes
the whole fragment a second time while serializing the envelope and then
unescapes the whole output exactly once, so the transmitted bytes contain
the payload escaped exactly once — and any payload substring made of
characters the escaper leaves alone (such as the two-character
brace-escape sequences) appears in the transmitted bytes exactly as
written. -/
theorem text_escape_sequences_survive_dispatch (payload seq : List Char)
    (hne : payload ≠ []) (hinf : seq <:+: payload)
    (hplain : ∀ c ∈ seq, escChar c = [c]) :
    sendTransmitted (EnumBody.noPage (renderText payload)) =
      (soapPre ++ eposOpen) ++
        ((textOpen ++ (escape payload ++ textClose)) ++ (eposClose ++ soapPost)) ∧
    seq <:+: sendTransmitted (EnumBody.noPage (renderText payload)) := by
  have hr : renderText payload = textOpen ++ (escape payload ++ textClose) := by
    rw [renderText, if_neg hne]
  have hfrag_ne : textOpen ++ (escape payload ++ textClose) ≠ [] := by
    intro h
    have := congrArg List.length h
    simp [textOpen] at this
  have ht : sendTransmitted (EnumBody.noPage (renderText payload)) =
      (soapPre ++ eposOpen) ++
        ((textOpen ++ (escape payload ++ textClose)) ++ (eposClose ++ soapPost)) := by
    rw [hr]
    exact sendTransmitted_noPage hfrag_ne
  refine ⟨ht, ?_⟩
  obtain ⟨a, c, hac⟩ := hinf
  have hesc : escape a ++ (seq ++ escape c) = escape payload := by
    rw [← hac, escape_append, escape_append, escape_eq_self_of_plain hplain,
      List.append_assoc]
  refine ⟨(soapPre ++ eposOpen) ++ (textOpen ++ escape a),
    escape c ++ (textClose ++ (eposClose ++ soapPost)), ?_⟩
  rw [ht, ← hesc]
  simp [List.append_assoc]

/-- Witness for C3: the payload holding the Code128 FNC1 brace-escape
sequence (left brace followed by the digit one) reaches the wire
verbatim. -/
theorem text_escape_sequences_survive_dispatch_witness :
    "\x7b1".toList <:+:
      sendTransmitted (EnumBody.noPage (renderText "\x7b1X\n".toList)) :=
  (text_escape_sequences_survive_dispatch "\x7b1X\n".toList "\x7b1".toList
    (by decide) (by decide) (by decide)).2

set_option maxRecDepth 8000 in
/-- Counterexample for claim C4: with the two rendered fragments
`<text>a</text>` and `<text>b</text>` appended, the dispatched bytes do
not contain their separator-free concatenation anywhere: `print` joins
the buffer with `"\n"` (`src/lib.rs` line 151), so a newline byte sits
between consecutive fragments. -/
theorem dispatch_no_separator_counterexample :
    ¬ ("<text>a</text>".toList ++ "<text>b</text>".toList) <:+:
      (NormalBuilder.mk ["<text>a</text>".toList, "<text>b</text>".toList]
        10000 "local_printer".toList "http://192.168.1.194".toList).print.1 := by
  have h := sendTransmitted_noPage
    (b := joinNL ["<text>a</text>".toList, "<text>b</text>".toList]) (by decide)
  rw [show (NormalBuilder.mk ["<text>a</text>".toList, "<text>b</text>".toList]
      10000 "local_printer".toList "http://192.168.1.194".toList).print.1 =
      sendTransmitted (EnumBody.noPage
        (joinNL ["<text>a</text>".toList, "<text>b</text>".toList])) from rfl, h]
  decide

/-- Amended claim C4: the dispatched body is the rendered fragments in
append order with exactly one `'\n'` byte between consecutive fragments
(`Vec::join("\n")`); in Page mode that joined body sits under an extra
`page` element inside `epos-print`, in Normal mode it sits directly
inside `epos-print`. -/
theorem dispatch_body_layout :
    (∀ b : NormalBuilder, joinNL b.build ≠ [] →
      b.print.1 = (soapPre ++ eposOpen) ++
        (joinNL b.build ++ (eposClose ++ soapPost))) ∧
    (∀ p : PageBuilder, joinNL p.build ≠ [] →
      p.print.1 = (soapPre ++ (eposOpen ++ pageOpen)) ++
        (joinNL p.build ++ (pageClose ++ (eposClose ++ soapPost)))) ∧
    (∀ (f g : List Char) (rest : List (List Char)),
      joinNL (f :: g :: rest) = f ++ '\n' :: joinNL (g :: rest)) :=
  ⟨fun _ hb => sendTransmitted_noPage hb,
   fun _ hp => sendTransmitted_page hp,
   fun _ _ _ => rfl⟩

/-- Witness for the amended C4 at a one-fragment builder. -/
theorem dispatch_body_layout_witness :
    (NormalBuilder.mk ["<cut type=\"feed\"/>".toList]
      10000 "local_printer".toList "http://192.168.1.194".toList).print.1 =
      (soapPre ++ eposOpen) ++
        (joinNL ["<cut type=\"feed\"/>".toList] ++ (eposClose ++ soapPost)) :=
  dispatch_body_layout.1
    (NormalBuilder.mk ["<cut type=\"feed\"/>".toList]
      10000 "local_printer".toList "http://192.168.1.194".toList) (by decide)

/-- Claim C9: `print` never clears the fragment buffer — the builder it
leaves behind has the same `build` list, so printing again transmits the
same bytes. -/
theorem print_leaves_buffer_unchanged :
    (∀ b : NormalBuilder, b.print.2.build = b.build ∧
      b.print.2.print.1 = b.print.1) ∧
    (∀ p : PageBuilder, p.print.2.build = p.build ∧
      p.print.2.print.1 = p.print.1) :=
  ⟨fun _ => ⟨rfl, rfl⟩, fun _ => ⟨rfl, rfl⟩⟩

/-- Counterexample for claim C1: on a reply with `success=true`, `send`
returns `Ok(())` — the unit value, as its return type
`Result<(), EPOSError>` (`src/soap.rs` line 65) dictates — not
`Ok(Response)`: the decoded `Response` is discarded on the success path,
so no dispatch can "return Ok carrying the Response". -/
theorem send_success_discards_response_counterexample :
    sendOutcome (Response.mk [] true [] 0 0) = Except.ok () := rfl

/-- Amended claim C1: a dispatch whose parsed reply has `success=false`
fails with `ResponseError` carrying the full decoded `Response` (its
`code` and `status` included); one whose reply has `success=true` returns
`Ok(())`, discarding the `Response`. -/
theorem send_outcome_by_success (r : Response) :
    (r.success = false →
      sendOutcome r = Except.error (EPOSError.responseError r)) ∧
    (r.success = true → sendOutcome r = Except.ok ()) := by
  constructor <;> intro h <;> simp [sendOutcome, h]

/-- Witness for the amended C1 at a concrete failed reply. -/
theorem send_outcome_by_success_witness :
    sendOutcome (Response.mk [] false "EX_BADPORT".toList 0x00080000 0) =
      Except.error (EPOSError.responseError
        (Response.mk [] false "EX_BADPORT".toList 0x00080000 0)) :=
  (send_outcome_by_success _).1 rfl

/-! ## Command kinds and mode legality
(`src/normal.rs`, `src/page.rs`, `src/universal.rs`)

The live library (the modules `lib.rs` actually declares) gates mode
legality with the marker traits `NormalItem` and `PageItem`:
`NormalBuilder::add` and `PageBuilder::add` are generic over them, so a
command outside the builder's mode simply does not type-check — there is
no runtime check and no mode error value anywhere.  (`src/printer.rs`
and `src/builder.rs`, which contain `Line`, `Direction` and `Position`
variants, are not referenced by any `mod` declaration in `src/lib.rs`
and are not part of the compiled crate.) -/

/-- The command types of the live crate: `Text`, `Feed`, `Barcode`,
`Symbol`, `Image` from `src/universal.rs`; `Cut`, `Hline` from
`src/normal.rs`; `Area`, `Rectangle` from `src/page.rs`. -/
inductive CommandKind where
  | text
  | feed
  | barcode
  | symbol
  | image
  | cut
  | hline
  | area
  | rectangle
deriving DecidableEq, Repr

/-- Which command types implement the `NormalItem` trait: `Cut` and
`Hline` (`src/normal.rs` lines 16, 32) and the five universal types
(`src/universal.rs` lines 48, 71, 102, 143, 159). -/
def implsNormalItem : CommandKind → Bool
  | CommandKind.text => true
  | CommandKind.feed => true
  | CommandKind.barcode => true
  | CommandKind.symbol => true
  | CommandKind.image => true
  | CommandKind.cut => true
  | CommandKind.hline => true
  | CommandKind.area => false
  | CommandKind.rectangle => false

/-- Which command types implement the `PageItem` trait: `Area` and
`Rectangle` (`src/page.rs` lines 27, 50) and the five universal types
(`src/universal.rs` lines 47, 70, 101, 142, 158). -/
def implsPageItem : CommandKind → Bool
  | CommandKind.text => true
  | CommandKind.feed => true
  | CommandKind.barcode => true
  | CommandKind.symbol => true
  | CommandKind.image => true
  | CommandKind.cut => false
  | CommandKind.hline => false
  | CommandKind.area => true
  | CommandKind.rectangle => true

/-- Counterexample for claim C5: nothing in the code can "fail at append
time with an IllegalForMode error".  `Area` does not implement
`NormalItem` and `Cut` does not implement `PageItem`, so the cross-mode
`add` calls the claim describes are compile-time type errors, not
executable calls; and the crate's error enum `EPOSError` has no
`IllegalForMode` variant at all (`add`'s error type is the serializer's
`DeError`, produced only by XML serialization). -/
theorem illegal_for_mode_counterexample :
    implsNormalItem CommandKind.area = false ∧
    implsPageItem CommandKind.cut = false ∧
    eposErrorVariants.contains "IllegalForMode" = false := by decide

/-- Amended claim C5: mode legality is enforced statically.  The commands
rejected by a Normal-mode builder are exactly the Page-only `Area` and
`Rectangle` (the live crate has no `Line`, `Direction` or `Position`
items), the commands rejected by a Page-mode builder are exactly the
Normal-only `Cut` and `Hline`, and the rejection is a missing trait
implementation — a compile error at the `add` call site — rather than a
runtime `IllegalForMode` failure, which the crate does not define. -/
theorem mode_enforcement_static :
    (∀ k : CommandKind, implsNormalItem k = false ↔
        (k = CommandKind.area ∨ k = CommandKind.rectangle)) ∧
    (∀ k : CommandKind, implsPageItem k = false ↔
        (k = CommandKind.cut ∨ k = CommandKind.hline)) ∧
    eposErrorVariants.contains "IllegalForMode" = false := by
  refine ⟨fun k => ?_, fun k => ?_, by decide⟩
  · cases k <;> decide
  · cases k <;> decide

/-- Claim C2: for every 32-bit status word `s`, the decoder sets each named
flag iff `s & mask ≠ 0` for that flag's mask in the fixed table, and nothing
else: the list of set flag names of the source decoder
(`PrinterStatus.fromCode`) equals, for every `s`, the spec-side table
decoder `decode_spec`. -/
theorem status_flags_eq_decode_spec (s : Nat) :
    (PrinterStatus.fromCode s).flags = decode_spec s := by
  simp only [decode_spec, statusTable, List.filter_cons, List.filter_nil,
    List.map_nil, apply_ite (List.map (Prod.fst (α := String) (β := Nat))),
    List.map_cons, PrinterStatus.flags, PrinterStatus.fromCode,
    ite_singleton_append]

/-- Claim C7: for every status word `s`, `drawer_kick_out_connector` and
`battery_offline_status` are both computed from mask `0x00000004`, and
`buzzer_on` and `label_wait_removal` are both computed from mask
`0x01000000`; each shared-mask pair is always emitted together as two
distinct fields, never merged. -/
theorem status_shared_mask_pairs_agree (s : Nat) :
    (PrinterStatus.fromCode s).drawer_kick_out_connector = (s &&& 0x00000004 != 0) ∧
    (PrinterStatus.fromCode s).battery_offline_status = (s &&& 0x00000004 != 0) ∧
    (PrinterStatus.fromCode s).buzzer_on = (s &&& 0x01000000 != 0) ∧
    (PrinterStatus.fromCode s).label_wait_removal = (s &&& 0x01000000 != 0) ∧
    (PrinterStatus.fromCode s).drawer_kick_out_connector =
      (PrinterStatus.fromCode s).battery_offline_status ∧
    (PrinterStatus.fromCode s).buzzer_on =
      (PrinterStatus.fromCode s).label_wait_removal :=
  ⟨rfl, rfl, rfl, rfl, rfl, rfl⟩

/-- Claim C10: decoding only looks at the bits of
`statusMaskUnion = 0xC10A6F6F` (the union of all table masks): two status
words that agree on those bits decode identically, and the word `0`
decodes to the all-false record. -/
theorem status_decode_depends_only_on_table_bits :
    (∀ s t : Nat, s &&& statusMaskUnion = t &&& statusMaskUnion →
      PrinterStatus.fromCode s = PrinterStatus.fromCode t) ∧
    PrinterStatus.fromCode 0 = PrinterStatus.allFalse := by
  constructor
  · intro s t h
    have k : ∀ m : Nat, m &&& statusMaskUnion = m → s &&& m = t &&& m :=
      fun m hm => land_congr_of_le_union h hm
    simp only [PrinterStatus.fromCode]
    rw [k 0x00000001 (by decide), k 0x00000002 (by decide), k 0x00000004 (by decide),
      k 0x00000008 (by decide), k 0x00000020 (by decide), k 0x00000040 (by decide),
      k 0x00000100 (by decide), k 0x00000200 (by decide), k 0x00000400 (by decide),
      k 0x00000800 (by decide), k 0x00002000 (by decide), k 0x00004000 (by decide),
      k 0x00020000 (by decide), k 0x00080000 (by decide), k 0x01000000 (by decide),
      k 0x40000000 (by decide), k 0x80000000 (by decide)]
  · decide

/-- Witness for C10 at a concrete input: `0x10` is not a table bit, so
`0x10` and `0` decode to the same record. -/
theorem status_decode_outside_bit_witness :
    PrinterStatus.fromCode 0x10 = PrinterStatus.fromCode 0 :=
  status_decode_depends_only_on_table_bits.1 0x10 0 (by decide)

/-- Counterexample for claim C6: the hex literal `0x0F020004` in the claim
is not the word the code's own test decodes (`251658262 = 0x0F000016`):
decoding `0x0F020004` does not set `success` (bit `0x2` is clear), and it
does set `no_paper_roll_near_end_sensor` (bit `0x20000`), so it is not the
claimed flag set. -/
theorem status_hex_literal_counterexample :
    (PrinterStatus.fromCode 0x0F020004).success = false ∧
    (PrinterStatus.fromCode 0x0F020004).no_paper_roll_near_end_sensor = true ∧
    (0x0F020004 : Nat) ≠ 251658262 := by decide

/-! ## Catalog enumerations (`src/formatters.rs`, `src/barcodes.rs`)

Each enumeration derives serde `Serialize`/`Deserialize`, with every unit
variant carrying a `#[serde(rename = "...")]` wire token.  `encode` below
is the token the derived `Serialize` emits for a variant; `decode` is the
derived `Deserialize`, which resolves an incoming token as a variant
identifier against the renamed variant names and rejects anything else as
an unknown-variant error (`none` here).

`Lang::Other(String)` and `ErrorCorrectionLevel::Int(u32)` are plain
newtype variants with no rename and no `#[serde(untagged)]` or
`#[serde(other)]` attribute: the derived `Deserialize` never falls back to
them on an unrecognized token (it errors instead), and the derived
`Serialize` emits them as externally tagged newtype variants, which have
no bare-token attribute form — so their `encodeToken` is `none`. -/

/-- `Align` (`src/formatters.rs` lines 4–13). -/
inductive Align where
  | left
  | center
  | right
deriving DecidableEq

def Align.encode : Align → String
  | Align.left => "left"
  | Align.center => "center"
  | Align.right => "right"

def Align.decode (s : String) : Option Align :=
  if s = "left" then some Align.left
  else if s = "center" then some Align.center
  else if s = "right" then some Align.right
  else none

/-- `FeedPos` (`src/formatters.rs` lines 15–30). -/
inductive FeedPos where
  | peeling
  | cutting
  | currentTof
  | nextTof
deriving DecidableEq

def FeedPos.encode : FeedPos → String
  | FeedPos.peeling => "peeling"
  | FeedPos.cutting => "cutting"
  | FeedPos.currentTof => "current_tof"
  | FeedPos.nextTof => "next_tof"

def FeedPos.decode (s : String) : Option FeedPos :=
  if s = "peeling" then some FeedPos.peeling
  else if s = "cutting" then some FeedPos.cutting
  else if s = "current_tof" then some FeedPos.currentTof
  else if s = "next_tof" then some FeedPos.nextTof
  else none

/-- `CutType` (`src/formatters.rs` lines 33–45). -/
inductive CutType where
  | noFeed
  | feed
  | reserve
deriving DecidableEq

def CutType.encode : CutType → String
  | CutType.noFeed => "no_feed"
  | CutType.feed => "feed"
  | CutType.reserve => "reserve"

def CutType.decode (s : String) : Option CutType :=
  if s = "no_feed" then some CutType.noFeed
  else if s = "feed" then some CutType.feed
  else if s = "reserve" then some CutType.reserve
  else none

/-- `Font` (`src/formatters.rs` lines 80–93). -/
inductive Font where
  | fontA
  | fontB
  | fontC
  | fontD
  | fontE
deriving DecidableEq

def Font.encode : Font → String
  | Font.fontA => "font_a"
  | Font.fontB => "font_b"
  | Font.fontC => "font_c"
  | Font.fontD => "font_d"
  | Font.fontE => "font_e"

def Font.decode (s : String) : Option Font :=
  if s = "font_a" then some Font.fontA
  else if s = "font_b" then some Font.fontB
  else if s = "font_c" then some Font.fontC
  else if s = "font_d" then some Font.fontD
  else if s = "font_e" then some Font.fontE
  else none

/-- `Style` (`src/formatters.rs` lines 111–126). -/
inductive Style where
  | thin
  | medium
  | thick
  | thinDouble
  | mediumDouble
  | thickDouble
deriving DecidableEq

def Style.encode : Style → String
  | Style.thin => "thin"
  | Style.medium => "medium"
  | Style.thick => "thick"
  | Style.thinDouble => "thin_double"
  | Style.mediumDouble => "medium_double"
  | Style.thickDouble => "thick_double"

def Style.decode (s : String) : Option Style :=
  if s = "thin" then some Style.thin
  else if s = "medium" then some Style.medium
  else if s = "thick" then some Style.thick
  else if s = "thin_double" then some Style.thinDouble
  else if s = "medium_double" then some Style.mediumDouble
  else if s = "thick_double" then some Style.thickDouble
  else none

/-- `PrintDirection` (`src/formatters.rs` lines 129–143). -/
inductive PrintDirection where
  | leftToRight
  | bottomToTop
  | rightToLeft
  | topToBottom
deriving DecidableEq

def PrintDirection.encode : PrintDirection → String
  | PrintDirection.leftToRight => "left_to_right"
  | PrintDirection.bottomToTop => "bottom_to_top"
  | PrintDirection.rightToLeft => "right_to_left"
  | PrintDirection.topToBottom => "top_to_bottom"

def PrintDirection.decode (s : String) : Option PrintDirection :=
  if s = "left_to_right" then some PrintDirection.leftToRight
  else if s = "bottom_to_top" then some PrintDirection.bottomToTop
  else if s = "right_to_left" then some PrintDirection.rightToLeft
  else if s = "top_to_bottom" then some PrintDirection.topToBottom
  else none

/-- `HRI` (`src/barcodes.rs` lines 157–168). -/
inductive HRI where
  | none
  | above
  | below
  | both
deriving DecidableEq

def HRI.encode : HRI → String
  | HRI.none => "none"
  | HRI.above => "above"
  | HRI.below => "below"
  | HRI.both => "both"

def HRI.decode (s : String) : Option HRI :=
  if s = "none" then some HRI.none
  else if s = "above" then some HRI.above
  else if s = "below" then some HRI.below
  else if s = "both" then some HRI.both
  else none

/-- `BarcodeType` (`src/barcodes.rs` lines 5–85).  Note the vendor
spellings: `EAN8`/`JAN8` are upper-case while `ean13`/`jan13` are
lower-case, exactly as in the source's rename attributes. -/
inductive BarcodeType where
  | upcA
  | upcE
  | ean13
  | jan13
  | ean8
  | jan8
  | code39
  | itf
  | codaBar
  | code93
  | code128
  | gs1_128
  | gs1DatabarOmnidirectional
  | gs1DatabarTruncated
  | gs1DatabarLimited
  | gs1DatabarExpanded
deriving DecidableEq

def BarcodeType.encode : BarcodeType → String
  | BarcodeType.upcA => "upc_a"
  | BarcodeType.upcE => "upc_e"
  | BarcodeType.ean13 => "ean13"
  | BarcodeType.jan13 => "jan13"
  | BarcodeType.ean8 => "EAN8"
  | BarcodeType.jan8 => "JAN8"
  | BarcodeType.code39 => "code39"
  | BarcodeType.itf => "itf"
  | BarcodeType.codaBar => "codabar"
  | BarcodeType.code93 => "code93"
  | BarcodeType.code128 => "code128"
  | BarcodeType.gs1_128 => "gs1_128"
  | BarcodeType.gs1DatabarOmnidirectional => "gs1_databar_omnidirectional"
  | BarcodeType.gs1DatabarTruncated => "gs1_databar_truncated"
  | BarcodeType.gs1DatabarLimited => "gs1_databar_limited"
  | BarcodeType.gs1DatabarExpanded => "gs1_databar_expanded"

def BarcodeType.decode (s : String) : Option BarcodeType :=
  if s = "upc_a" then some BarcodeType.upcA
  else if s = "upc_e" then some BarcodeType.upcE
  else if s = "ean13" then some BarcodeType.ean13
  else if s = "jan13" then some BarcodeType.jan13
  else if s = "EAN8" then some BarcodeType.ean8
  else if s = "JAN8" then some BarcodeType.jan8
  else if s = "code39" then some BarcodeType.code39
  else if s = "itf" then some BarcodeType.itf
  else if s = "codabar" then some BarcodeType.codaBar
  else if s = "code93" then some BarcodeType.code93
  else if s = "code128" then some BarcodeType.code128
  else if s = "gs1_128" then some BarcodeType.gs1_128
  else if s = "gs1_databar_omnidirectional" then some BarcodeType.gs1DatabarOmnidirectional
  else if s = "gs1_databar_truncated" then some BarcodeType.gs1DatabarTruncated
  else if s = "gs1_databar_limited" then some BarcodeType.gs1DatabarLimited
  else if s = "gs1_databar_expanded" then some BarcodeType.gs1DatabarExpanded
  else none

/-- `SymbolType` (`src/barcodes.rs` lines 87–155). -/
inductive SymbolType where
  | pdf417
  | pdf415Trunc
  | qrCode1
  | qrCode2
  | maxiCodeMode2
  | maxiCodeMode3
  | maxiCodeMode4
  | maxiCodeMode5
  | maxiCodeMode6
  | gs1DatabarStacked
  | gs1DatabarStackedOmnidirectional
  | gs1DatabarExpandedStacked
  | aztecCodeFullRange
  | aztecCodeCompact
  | datamatrixSquare
  | datamatrixRectangle8
  | datamatrixRectangle12
  | datamatrixRectangle16
deriving DecidableEq

def SymbolType.encode : SymbolType → String
  | SymbolType.pdf417 => "pdf417_standard"
  | SymbolType.pdf415Trunc => "pdf417_truncated"
  | SymbolType.qrCode1 => "qrcode_model_1"
  | SymbolType.qrCode2 => "qrcode_model_2"
  | SymbolType.maxiCodeMode2 => "maxicode_mode_2"
  | SymbolType.maxiCodeMode3 => "maxicode_mode_3"
  | SymbolType.maxiCodeMode4 => "maxicode_mode_4"
  | SymbolType.maxiCodeMode5 => "maxicode_mode_5"
  | SymbolType.maxiCodeMode6 => "maxicode_mode_6"
  | SymbolType.gs1DatabarStacked => "gs1_databar_stacked"
  | SymbolType.gs1DatabarStackedOmnidirectional => "gs1_databar_stacked_omnidirectional"
  | SymbolType.gs1DatabarExpandedStacked => "gs1_databar_expanded_stacked"
  | SymbolType.aztecCodeFullRange => "azteccode_fullrange"
  | SymbolType.aztecCodeCompact => "azteccode_compact"
  | SymbolType.datamatrixSquare => "datamatrix_square"
  | SymbolType.datamatrixRectangle8 => "datamatrix_rectangle_8"
  | SymbolType.datamatrixRectangle12 => "datamatrix_rectangle_12"
  | SymbolType.datamatrixRectangle16 => "datamatrix_rectangle_16"

def SymbolType.decode (s : String) : Option SymbolType :=
  if s = "pdf417_standard" then some SymbolType.pdf417
  else if s = "pdf417_truncated" then some SymbolType.pdf415Trunc
  else if s = "qrcode_model_1" then some SymbolType.qrCode1
  else if s = "qrcode_model_2" then some SymbolType.qrCode2
  else if s = "maxicode_mode_2" then some SymbolType.maxiCodeMode2
  else if s = "maxicode_mode_3" then some SymbolType.maxiCodeMode3
  else if s = "maxicode_mode_4" then some SymbolType.maxiCodeMode4
  else if s = "maxicode_mode_5" then some SymbolType.maxiCodeMode5
  else if s = "maxicode_mode_6" then some SymbolType.maxiCodeMode6
  else if s = "gs1_databar_stacked" then some SymbolType.gs1DatabarStacked
  else if s = "gs1_databar_stacked_omnidirectional" then some SymbolType.gs1DatabarStackedOmnidirectional
  else if s = "gs1_databar_expanded_stacked" then some SymbolType.gs1DatabarExpandedStacked
  else if s = "azteccode_fullrange" then some SymbolType.aztecCodeFullRange
  else if s = "azteccode_compact" then some SymbolType.aztecCodeCompact
  else if s = "datamatrix_square" then some SymbolType.datamatrixSquare
  else if s = "datamatrix_rectangle_8" then some SymbolType.datamatrixRectangle8
  else if s = "datamatrix_rectangle_12" then some SymbolType.datamatrixRectangle12
  else if s = "datamatrix_rectangle_16" then some SymbolType.datamatrixRectangle16
  else none

/-- `Lang` (`src/formatters.rs` lines 48–78), with the un-renamed newtype
variant `Other(String)`. -/
inductive Lang where
  | de
  | fr
  | en
  | it
  | es
  | ja
  | jaJp
  | ko
  | koKr
  | zhHans
  | zhCn
  | zhHant
  | zhTw
  | other (s : String)
deriving DecidableEq

/-- The bare attribute token the derived `Serialize` emits: the rename
token for each unit variant; `Other` has no bare-token form (externally
tagged newtype variant). -/
def Lang.encodeToken : Lang → Option String
  | Lang.de => some "de"
  | Lang.fr => some "fr"
  | Lang.en => some "en"
  | Lang.it => some "it"
  | Lang.es => some "es"
  | Lang.ja => some "ja"
  | Lang.jaJp => some "ja-jp"
  | Lang.ko => some "ko"
  | Lang.koKr => some "ko-kr"
  | Lang.zhHans => some "zh-hans"
  | Lang.zhCn => some "zh-cn"
  | Lang.zhHant => some "zh-hant"
  | Lang.zhTw => some "zh-tw"
  | Lang.other _ => none

/-- The derived `Deserialize`: variant-identifier lookup over the rename
tokens; anything else is an unknown-variant error, never `Other(token)`. -/
def Lang.decode (s : String) : Option Lang :=
  if s = "de" then some Lang.de
  else if s = "fr" then some Lang.fr
  else if s = "en" then some Lang.en
  else if s = "it" then some Lang.it
  else if s = "es" then some Lang.es
  else if s = "ja" then some Lang.ja
  else if s = "ja-jp" then some Lang.jaJp
  else if s = "ko" then some Lang.ko
  else if s = "ko-kr" then some Lang.koKr
  else if s = "zh-hans" then some Lang.zhHans
  else if s = "zh-cn" then some Lang.zhCn
  else if s = "zh-hant" then some Lang.zhHant
  else if s = "zh-tw" then some Lang.zhTw
  else none

/-- `ErrorCorrectionLevel` (`src/barcodes.rs` lines 170–205), with the
un-renamed newtype variant `Int(u32)`. -/
inductive ErrorCorrectionLevel where
  | level0
  | level1
  | level2
  | level3
  | level4
  | level5
  | level6
  | level7
  | level8
  | levelL
  | levelM
  | levelQ
  | levelH
  | default
  | int (n : Nat)
deriving DecidableEq

/-- Bare attribute token of the derived `Serialize`; `Int` has no
bare-token form (externally tagged newtype variant, no rename). -/
def ErrorCorrectionLevel.encodeToken : ErrorCorrectionLevel → Option String
  | ErrorCorrectionLevel.level0 => some "level_0"
  | ErrorCorrectionLevel.level1 => some "level_1"
  | ErrorCorrectionLevel.level2 => some "level_2"
  | ErrorCorrectionLevel.level3 => some "level_3"
  | ErrorCorrectionLevel.level4 => some "level_4"
  | ErrorCorrectionLevel.level5 => some "level_5"
  | ErrorCorrectionLevel.level6 => some "level_6"
  | ErrorCorrectionLevel.level7 => some "level_7"
  | ErrorCorrectionLevel.level8 => some "level_8"
  | ErrorCorrectionLevel.levelL => some "level_l"
  | ErrorCorrectionLevel.levelM => some "level_m"
  | ErrorCorrectionLevel.levelQ => some "level_q"
  | ErrorCorrectionLevel.levelH => some "level_h"
  | ErrorCorrectionLevel.default => some "default"
  | ErrorCorrectionLevel.int _ => none

/-- Derived `Deserialize`: variant-identifier lookup; an unrecognized
token (for instance a bare integer) is an unknown-variant error, never
`Int(value)`. -/
def ErrorCorrectionLevel.decode (s : String) : Option ErrorCorrectionLevel :=
  if s = "level_0" then some ErrorCorrectionLevel.level0
  else if s = "level_1" then some ErrorCorrectionLevel.level1
  else if s = "level_2" then some ErrorCorrectionLevel.level2
  else if s = "level_3" then some ErrorCorrectionLevel.level3
  else if s = "level_4" then some ErrorCorrectionLevel.level4
  else if s = "level_5" then some ErrorCorrectionLevel.level5
  else if s = "level_6" then some ErrorCorrectionLevel.level6
  else if s = "level_7" then some ErrorCorrectionLevel.level7
  else if s = "level_8" then some ErrorCorrectionLevel.level8
  else if s = "level_l" then some ErrorCorrectionLevel.levelL
  else if s = "level_m" then some ErrorCorrectionLevel.levelM
  else if s = "level_q" then some ErrorCorrectionLevel.levelQ
  else if s = "level_h" then some ErrorCorrectionLevel.levelH
  else if s = "default" then some ErrorCorrectionLevel.default
  else none

/-- Counterexample for claim C8: `Lang::Other` and
`ErrorCorrectionLevel::Int` are not decode fallbacks and do not carry a
bare raw token.  The unknown token `xx` fails to decode instead of
becoming `Other("xx")`, the token `42` fails instead of becoming
`Int(42)`, and neither variant has a bare-token encoding. -/
theorem catalog_fallback_counterexample :
    Lang.decode "xx" = none ∧
    Lang.encodeToken (Lang.other "xx") = none ∧
    ErrorCorrectionLevel.decode "42" = none ∧
    ErrorCorrectionLevel.encodeToken (ErrorCorrectionLevel.int 42) = none := by
  decide

/-- Amended claim C8: every variant of the eleven catalog enumerations
that has a wire token (all variants except `Lang::Other` and
`ErrorCorrectionLevel::Int`) maps to exactly one fixed token, and
decoding that token returns exactly that variant; unknown tokens fail to
decode for every enumeration — the two newtype variants are not serde
fallbacks and preserve nothing. -/
theorem catalog_roundtrip :
    (∀ v : Align, Align.decode (Align.encode v) = some v) ∧
    (∀ v : FeedPos, FeedPos.decode (FeedPos.encode v) = some v) ∧
    (∀ v : CutType, CutType.decode (CutType.encode v) = some v) ∧
    (∀ v : Font, Font.decode (Font.encode v) = some v) ∧
    (∀ v : Style, Style.decode (Style.encode v) = some v) ∧
    (∀ v : PrintDirection, PrintDirection.decode (PrintDirection.encode v) = some v) ∧
    (∀ v : HRI, HRI.decode (HRI.encode v) = some v) ∧
    (∀ v : BarcodeType, BarcodeType.decode (BarcodeType.encode v) = some v) ∧
    (∀ v : SymbolType, SymbolType.decode (SymbolType.encode v) = some v) ∧
    (∀ (v : Lang) (t : String), Lang.encodeToken v = some t →
      Lang.decode t = some v) ∧
    (∀ (v : ErrorCorrectionLevel) (t : String),
      ErrorCorrectionLevel.encodeToken v = some t →
      ErrorCorrectionLevel.decode t = some v) := by
  refine ⟨fun v => ?_, fun v => ?_, fun v => ?_, fun v => ?_, fun v => ?_,
    fun v => ?_, fun v => ?_, fun v => ?_, fun v => ?_,
    fun v t h => ?_, fun v t h => ?_⟩
  case _ => cases v <;> decide
  case _ => cases v <;> decide
  case _ => cases v <;> decide
  case _ => cases v <;> decide
  case _ => cases v <;> decide
  case _ => cases v <;> decide
  case _ => cases v <;> decide
  case _ => cases v <;> decide
  case _ => cases v <;> decide
  case _ =>
    cases v <;> simp only [Lang.encodeToken, Option.some.injEq,
      reduceCtorEq] at h <;> subst h <;> decide
  case _ =>
    cases v <;> simp only [ErrorCorrectionLevel.encodeToken, Option.some.injEq,
      reduceCtorEq] at h <;> subst h <;> decide

/-- Witness for the amended C8: the `Lang` clause applied at `en`. -/
theorem catalog_roundtrip_witness :
    Lang.decode "en" = some Lang.en :=
  catalog_roundtrip.2.2.2.2.2.2.2.2.2.1 Lang.en "en" rfl

/-- Amended claim C6: the status word `251658262 = 0x0F000016` (the literal
in the source's `test_status_bitmask`) decodes to exactly
`{success, drawer_kick_out_connector, battery_offline_status, buzzer_on,
label_wait_removal}` with every other flag false. -/
theorem status_251658262_decodes_exactly :
    PrinterStatus.fromCode 251658262 =
      { PrinterStatus.allFalse with
          success := true
          drawer_kick_out_connector := true
          battery_offline_status := true
          buzzer_on := true
          label_wait_removal := true } ∧
    (PrinterStatus.fromCode 251658262).flags =
      ["success", "drawer_kick_out_connector", "battery_offline_status",
       "buzzer_on", "label_wait_removal"] := by decide

end Epos
